import Mathlib

/-!
Verification of the natural-language specification of the IDAES example-notebook
repository against the notebooks themselves.

The repository consists of six tutorial notebooks stored in three files:

* petsc_chem.ipynb  -- the PETSc chemical Akzo Nobel example;
* petsc_pid.ipynb   -- the PETSc PID steam-tank example, followed in the same
  file by the PySMO and the ALAMO autothermal-reformer surrogate notebooks;
* pump_test.ipynb   -- the pump unit-model example, followed in the same file
  by the benzene-toluene Txy-diagram notebook.

Each notebook is a straight-line sequence of Python statements.  We embed every
executable statement of every notebook as a value of the `Stmt` type below, in
source order.  Constructors record the features the specification talks about:
model construction, unit-model attachment, variable fixing, solver invocations
with their option dictionaries, surrogate save and load calls with their file
names, embedded assertions with their comparison forms and tolerances, error
handling constructs, plotting, and locally defined helper functions.  Comments,
markdown cells and empty cells are not statements and are not transcribed;
consecutive homogeneous print or plot calls inside one cell are transcribed as
one statement whose description names them.  Statements guarded by an
`if <flag>:` block are listed in order, preceded by a `branchOnFlag` marker for
that flag, and statements guarded by a try block are preceded by a `tryExcept`
marker naming the caught exception.
-/

namespace IdaesExamples

/-- Value of one entry of a PETSc `ts_options` dictionary: either a string or a
number.  Numbers are embedded as exact rationals. -/
inductive OptVal
  | str (s : String)
  | num (q : ℚ)
  deriving DecidableEq, Repr

/-- Value passed to a Pyomo `.fix()` call: either a numeric literal or a value
computed by an external library call, recorded by description. -/
inductive FixVal
  | num (q : ℚ)
  | expr (desc : String)
  deriving DecidableEq, Repr

/-- Abstract syntax of the expressions the notebooks build locally: constants,
string literals, function parameters, the explicit time variable
`b.time_var[t]`, references to model variables, arithmetic, calls to the
external IDAES smoothing helpers smooth_min and smooth_max, and calls into
other external library functions with one or two arguments. -/
inductive Expr
  | const (q : ℚ)
  | lit (s : String)
  | param (s : String)
  | timeVar
  | modelVar (s : String)
  | add (a b : Expr)
  | sub (a b : Expr)
  | mul (a b : Expr)
  | sMin (a b : Expr)
  | sMax (a b : Expr)
  | call1 (fn : String) (a : Expr)
  | call2 (fn : String) (a b : Expr)
  deriving DecidableEq, Repr

/-- Comparison form of one embedded `assert` statement.

* `dofEq name n` embeds `assert <name> == n` where `<name>` holds a
  `degrees_of_freedom` query result;
* `termOptimal` and `statusOk` embed the solver termination-condition and
  solver-status checks;
* `approxAbs lhs e tol` embeds `assert <lhs> == pytest.approx(e, abs=tol)`;
* `absDiffLe lhs r tol` embeds `assert abs(<lhs> - r) <= tol`;
* `relErrLt lhs ref tol` embeds `assert abs(ref - <lhs>) / ref < tol`;
* `boolValue desc` embeds `assert value(<expression>)` for a Pyomo Boolean
  expression, recorded by description. -/
inductive AssertForm
  | dofEq (name : String) (expected : Int)
  | termOptimal
  | statusOk
  | approxAbs (lhs : String) (expected tol : ℚ)
  | absDiffLe (lhs : String) (ref tol : ℚ)
  | relErrLt (lhs refName : String) (tol : ℚ)
  | boolValue (desc : String)
  deriving DecidableEq, Repr

/-- One executable notebook statement, abstracted to the features the
specification concerns.  Constructors that could not occur in a faithful
transcription of these notebooks (for example `loopCompute` for a loop whose
body computes rather than prints, or a `defFun` with `isRecursive = true`) are
included so that the structural properties proved below are falsifiable. -/
inductive Stmt
  | importLibs (desc : String)
  | buildContainer (desc : String) (attachesUnits : Bool)
  | attachModel (desc : String)
  | fixVar (v : String) (val : FixVal)
  | unfixVar (v : String)
  | setValue (v : String) (q : ℚ)
  | addVar (desc : String)
  | addConstraint (name : String) (rhs : Expr)
  | addComponent (desc : String)
  | activateConstraint (desc : String)
  | deactivateConstraint (desc : String)
  | dofQuery (name : String)
  | initUnit (desc : String)
  | solveCall (solver : String)
  | petscSolve (opts : List (String × OptVal))
  | solveAndPlot (desc : String)
  | trainCall (tool : String)
  | saveSurrogate (file : String)
  | loadSurrogate (file : String) (target : String)
  | attachSurrogate (source : String)
  | assertStmt (a : AssertForm)
  | plot (desc : String)
  | printStmt (desc : String)
  | loopPrintOnly (desc : String)
  | loopCompute (desc : String)
  | defFun (name : String) (isRecursive : Bool) (body : Expr)
  | tryExcept (exc : String) (desc : String)
  | branchOnFlag (flag : String)
  | misc (desc : String)
  deriving DecidableEq, Repr

/-- Right-hand side of the single-element ramp constraint of the PID notebook:
`smooth_min(600000, smooth_max(500000, 50000 * (b.time_var[t] - 10) + 500000))`. -/
def smoothRampExpr : Expr :=
  .sMin (.const 600000)
    (.sMax (.const 500000)
      (.add (.mul (.const 50000) (.sub .timeVar (.const 10))) (.const 500000)))

/-- Right-hand side of the three-element ramp constraint of the PID notebook:
`50000 * (b.time_var[t] - 10) + 500000`. -/
def linRampExpr : Expr :=
  .add (.mul (.const 50000) (.sub .timeVar (.const 10))) (.const 500000)

/-- Body of the `datafile_path` helper defined in both surrogate notebooks:
`Path("..") / name`. -/
def datafilePathBody : Expr :=
  .call2 "Path.div" (.call1 "Path" (.lit "..")) (.param "name")

/-- The `ts_options` dictionary passed to all three PETSc invocations of the
PID notebook. -/
def pidTsOptions : List (String × OptVal) :=
  [("--ts_type", .str "beuler"),
   ("--ts_dt", .num (mkRat 1 10)),
   ("--ts_monitor", .str ""),
   ("--ts_save_trajectory", .num 1)]

/-- The `ts_options` dictionary passed to the PETSc invocation of the chemical
Akzo Nobel notebook. -/
def chemTsOptions : List (String × OptVal) :=
  [("--ts_type", .str "cn"),
   ("--ts_adapt_type", .str "basic"),
   ("--ts_dt", .num (mkRat 1 100)),
   ("--ts_save_trajectory", .num 1)]

/-- Transcription of the chemical Akzo Nobel notebook (petsc_chem.ipynb). -/
def petscChemNb : List Stmt :=
  [.importLibs "numpy matplotlib pyomo idaes petsc utilities and the dae example problem",
   .buildContainer "m and reference solution y1 to y6 from idaes.core.solvers.features.dae with nfe 10" false,
   .printStmt "initial conditions y1 to y5 at t equal 0",
   .petscSolve chemTsOptions,
   .misc "store result.trajectory and result.results",
   .assertStmt (.relErrLt "pyo.value(m.y[180,1])" "y1" (mkRat 1 1000)),
   .assertStmt (.relErrLt "pyo.value(m.y[180,2])" "y2" (mkRat 1 1000)),
   .assertStmt (.relErrLt "pyo.value(m.y[180,3])" "y3" (mkRat 1 1000)),
   .assertStmt (.relErrLt "pyo.value(m.y[180,4])" "y4" (mkRat 1 1000)),
   .assertStmt (.relErrLt "pyo.value(m.y[180,5])" "y5" (mkRat 1 1000)),
   .assertStmt (.relErrLt "pyo.value(m.y6[180])" "y6" (mkRat 1 1000)),
   .plot "y1 to y6 stored in the model over m.t",
   .plot "trajectory of all y variables",
   .plot "trajectory of y2 and y4",
   .plot "trajectory of y2 over a short time window",
   .misc "tji from tj.interpolate over linspace 0 180 181",
   .plot "interpolated trajectory of all y variables",
   .plot "interpolated versus original y2"]

/-- Transcription of the PID steam-tank notebook (first document of
petsc_pid.ipynb).  The `create_model` helper lives in the repository module
idaes_examples.mod.dae.petsc.pid_steam_tank, which is not among the source
files; following the notebook text it builds a flowsheet holding the valve_1,
tank and valve_2 unit models, so it is transcribed as a container build that
also attaches unit models. -/
def petscPidNb : List Stmt :=
  [.importLibs "numpy matplotlib pyomo pyomo.dae petsc utilities pid_steam_tank smooth_max smooth_min",
   .buildContainer "pid.create_model with time_set 0 12 and nfe 1 and calc_integ true" true,
   .petscSolve pidTsOptions,
   .misc "store result.trajectory and result.results",
   .plot "valve 1 fraction open",
   .plot "tank pressure",
   .buildContainer "pid.create_model with time_set 0 24 and nfe 1 and calc_integ true" true,
   .addVar "fs.time_var over fs.time",
   .unfixVar "valve_1.control_volume.properties_in[0].pressure",
   .unfixVar "valve_1.control_volume.properties_in[24].pressure",
   .fixVar "fs.time_var[0]" (.num 0),
   .addConstraint "inlet_pressure_eqn" smoothRampExpr,
   .petscSolve pidTsOptions,
   .misc "store result.trajectory and result.results",
   .plot "inlet pressure",
   .plot "valve 1 fraction open",
   .plot "tank pressure",
   .buildContainer "pid.create_model with time_set 0 10 12 24 and nfe 3 and calc_integ true" true,
   .addVar "fs.time_var over fs.time",
   .fixVar "valve_1.control_volume.properties_in[0].pressure" (.num 500000),
   .fixVar "valve_1.control_volume.properties_in[10].pressure" (.num 500000),
   .setValue "valve_1.control_volume.properties_in[12].pressure" 600000,
   .unfixVar "valve_1.control_volume.properties_in[12].pressure",
   .fixVar "valve_1.control_volume.properties_in[24].pressure" (.num 600000),
   .addConstraint "inlet_pressure_eqn" linRampExpr,
   .deactivateConstraint "inlet_pressure_eqn at all times",
   .activateConstraint "inlet_pressure_eqn at time 12",
   .petscSolve pidTsOptions,
   .misc "store result.trajectory and result.results",
   .plot "inlet pressure",
   .plot "valve 1 fraction open",
   .plot "tank pressure"]

/-- Transcription of the PySMO autothermal-reformer surrogate notebook (second
document of petsc_pid.ipynb). -/
def pysmoNb : List Stmt :=
  [.defFun "datafile_path" false datafilePathBody,
   .misc "IPython Image display of AR_PFD.png",
   .importLibs "numpy pandas pyomo idaes surrogate sampling plotting SurrogateBlock FlowsheetBlock",
   .misc "read reformer-data.csv and randomly sample 100 rows",
   .misc "take input and output labels and split 80 20 into training and validation data",
   .misc "redirect stdout to a StringIO buffer",
   .trainCall "PysmoPolyTrainer train_surrogate with polynomial order 6 multinomials and 10 crossvalidations",
   .misc "wrap the trained model in a PysmoSurrogate with input bounds",
   .saveSurrogate "pysmo_poly_surrogate.json",
   .misc "restore stdout",
   .loopPrintOnly "print the first 50 lines of the captured output",
   .loopPrintOnly "print the last 50 lines of the captured output",
   .plot "surrogate training scatter2D parity and residual plots",
   .plot "surrogate validation scatter2D parity and residual plots",
   .buildContainer "ConcreteModel with FlowsheetBlock dynamic false" false,
   .addVar "flowsheet input vars bypass_frac and ng_steam_ratio and 13 output vars",
   .misc "input and output variable object lists",
   .misc "redirect stdout to a StringIO buffer",
   .loadSurrogate "pysmo_poly_surrogate.json" "surrogate",
   .attachSurrogate "surrogate",
   .misc "restore stdout",
   .fixVar "fs.bypass_frac" (.num (mkRat 1 2)),
   .fixVar "fs.ng_steam_ratio" (.num 1),
   .solveCall "ipopt via _run_ipopt_with_stats",
   .printStmt "model status and solved output values",
   .unfixVar "fs.bypass_frac",
   .unfixVar "fs.ng_steam_ratio",
   .addComponent "objective maximize fs.H2",
   .addComponent "constraint fs.N2 at most 0.34",
   .solveCall "ipopt solver.solve",
   .assertStmt (.absDiffLe "value(m.fs.H2)" (mkRat 33 100) (mkRat 1 100)),
   .assertStmt (.boolValue "value of fs.N2 at most 0.4 plus 1e-8"),
   .printStmt "model status and solve time",
   .loopPrintOnly "print input variable values",
   .loopPrintOnly "print output variable values"]

/-- Transcription of the ALAMO autothermal-reformer surrogate notebook (third
document of petsc_pid.ipynb). -/
def alamoNb : List Stmt :=
  [.defFun "datafile_path" false datafilePathBody,
   .misc "IPython Image display of AR_PFD.png",
   .importLibs "numpy pandas pyomo idaes surrogate sampling alamopy plotting SurrogateBlock FlowsheetBlock",
   .misc "read reformer-data.csv and randomly sample 100 rows",
   .misc "take input and output labels and split 80 20 into training and validation data",
   .misc "redirect stdout to a StringIO buffer",
   .misc "create AlamoTrainer and set basis term and maxterms and filename options",
   .tryExcept "FileNotFoundError" "on missing ALAMO print a message and set has_alamo false otherwise re-raise",
   .trainCall "AlamoTrainer train_surrogate",
   .branchOnFlag "has_alamo",
   .saveSurrogate "alamo_surrogate.json",
   .misc "rebuild the AlamoSurrogate object from trainer results and input bounds",
   .misc "restore stdout",
   .loopPrintOnly "print the first 50 lines of the captured output",
   .loopPrintOnly "print the last 50 lines of the captured output",
   .branchOnFlag "has_alamo",
   .plot "surrogate training scatter2D parity and residual plots",
   .branchOnFlag "has_alamo",
   .plot "surrogate validation scatter2D parity and residual plots",
   .branchOnFlag "has_alamo",
   .buildContainer "ConcreteModel with FlowsheetBlock dynamic false" false,
   .addVar "flowsheet input vars bypass_frac and ng_steam_ratio and 13 output vars",
   .misc "input and output variable object lists",
   .loadSurrogate "alamo_surrogate.json" "surrogate",
   .attachSurrogate "surrogate",
   .fixVar "fs.bypass_frac" (.num (mkRat 1 2)),
   .fixVar "fs.ng_steam_ratio" (.num 1),
   .solveCall "ipopt via _run_ipopt_with_stats",
   .branchOnFlag "status_obj",
   .printStmt "model status and solved output values",
   .branchOnFlag "has_alamo",
   .unfixVar "fs.bypass_frac",
   .unfixVar "fs.ng_steam_ratio",
   .addComponent "objective maximize fs.H2",
   .addComponent "constraint fs.N2 at most 0.34",
   .solveCall "ipopt solver.solve",
   .assertStmt (.absDiffLe "value(m.fs.H2)" (mkRat 33 100) (mkRat 1 100)),
   .assertStmt (.boolValue "value of fs.N2 at most 0.4 plus 1e-8"),
   .printStmt "model status and solve time",
   .loopPrintOnly "print input variable values",
   .loopPrintOnly "print output variable values"]

/-- Transcription of the shared prelude of the pump notebook (first document of
pump_test.ipynb): imports, model container, and the IAPWS property package. -/
def pumpPrelude : List Stmt :=
  [.importLibs "pyomo ConcreteModel SolverFactory value units and idaes FlowsheetBlock and logger",
   .buildContainer "ConcreteModel with FlowsheetBlock dynamic false" false,
   .attachModel "Iapws95ParameterBlock with liquid phase presentation"]

/-- Transcription of Case 1 of the pump notebook: fix pressure change and pump
efficiency. -/
def pumpCase1 : List Stmt :=
  [.attachModel "Pump pump_case_1 with property package fs.properties",
   .importLibs "degrees_of_freedom from idaes.core.util.model_statistics",
   .dofQuery "DOF_initial",
   .printStmt "the initial DOF",
   .assertStmt (.dofEq "DOF_initial" 5),
   .fixVar "pump_case_1.inlet.flow_mol[0]" (.num 100),
   .fixVar "pump_case_1.inlet.enth_mol[0]" (.expr "iapws95 htpx at T 298.15 K and P 101325 Pa"),
   .fixVar "pump_case_1.inlet.pressure[0]" (.num 101325),
   .fixVar "pump_case_1.deltaP" (.num 100000),
   .fixVar "pump_case_1.efficiency_pump" (.num (mkRat 4 5)),
   .dofQuery "DOF_final",
   .printStmt "the final DOF",
   .assertStmt (.dofEq "DOF_final" 0),
   .initUnit "pump_case_1.initialize with outlvl INFO",
   .solveCall "ipopt opt.solve on m",
   .assertStmt .termOptimal,
   .assertStmt .statusOk,
   .misc "pump_case_1.report",
   .assertStmt (.approxAbs "m.fs.pump_case_1.outlet.pressure[0].value" 201325 (mkRat 1 100)),
   .assertStmt (.approxAbs "m.fs.pump_case_1.work_mechanical[0].value" (mkRat 22585 100) (mkRat 1 100))]

/-- Transcription of Case 2 of the pump notebook: fix outlet pressure and pump
efficiency. -/
def pumpCase2 : List Stmt :=
  [.attachModel "Pump pump_case_2 with property package fs.properties",
   .dofQuery "DOF_initial",
   .printStmt "the initial DOF",
   .assertStmt (.dofEq "DOF_initial" 5),
   .fixVar "pump_case_2.inlet.flow_mol[0]" (.num 100),
   .fixVar "pump_case_2.inlet.enth_mol[0]" (.expr "iapws95 htpx at T 298.15 K and P 101325 Pa"),
   .fixVar "pump_case_2.inlet.pressure[0]" (.num 101325),
   .fixVar "pump_case_2.outlet.pressure[0]" (.num 201325),
   .fixVar "pump_case_2.efficiency_pump" (.num (mkRat 4 5)),
   .dofQuery "DOF_final",
   .printStmt "the final degrees of freedom",
   .assertStmt (.dofEq "DOF_final" 0),
   .initUnit "pump_case_2.initialize with outlvl INFO",
   .solveCall "ipopt opt.solve on m.fs.pump_case_2",
   .assertStmt .termOptimal,
   .assertStmt .statusOk,
   .misc "pump_case_2.report",
   .assertStmt (.approxAbs "m.fs.pump_case_2.deltaP[0].value" 100000 (mkRat 1 100)),
   .assertStmt (.approxAbs "m.fs.pump_case_2.work_mechanical[0].value" (mkRat 22585 100) (mkRat 1 100))]

/-- Transcription of the pump notebook (first document of pump_test.ipynb). -/
def pumpNb : List Stmt := pumpPrelude ++ pumpCase1 ++ pumpCase2

/-- Transcription of the Txy-diagram notebook (second document of
pump_test.ipynb).  The `Txy_diagram` call both invokes the external ipopt
solver over the requested composition points and renders the resulting
temperature-composition plot, so it is transcribed as a combined solve-and-plot
statement. -/
def txyNb : List Stmt :=
  [.importLibs "pyomo ConcreteModel idaes logger GenericParameterBlock",
   .importLibs "property sub-libraries FTPx Ideal SmoothVLE IdealBubbleDew fugacity Perrys RPP4",
   .misc "configuration dictionary of benzene and toluene property parameters",
   .buildContainer "ConcreteModel" false,
   .attachModel "GenericParameterBlock from the configuration dictionary",
   .solveAndPlot "Txy_diagram for benzene and toluene at 101325 Pa with 25 points and ipopt tolerance options"]

/-- All six notebooks of the repository, in file order. -/
def allNotebooks : List (List Stmt) :=
  [petscChemNb, petscPidNb, pysmoNb, alamoNb, pumpNb, txyNb]

/-!  Classification of statements into the five conceptual steps the
specification describes: build a model container, attach framework models, fix
variables, invoke an external solver, and extract results. -/

/-- The five conceptual steps of section 2 of the specification. -/
inductive StepClass
  | build
  | attach
  | fix
  | solve
  | extract
  deriving DecidableEq, Repr

/-- Steps performed by one statement.  A container build that also attaches
unit models (the pid create_model helper) yields both a build and an attach
step; the Txy_diagram call yields both a solve and an extract step; value
asserts, plots and result prints are extraction. -/
def Stmt.steps : Stmt → List StepClass
  | .buildContainer _ true => [.build, .attach]
  | .buildContainer _ false => [.build]
  | .attachModel _ => [.attach]
  | .attachSurrogate _ => [.attach]
  | .fixVar _ _ => [.fix]
  | .solveCall _ => [.solve]
  | .petscSolve _ => [.solve]
  | .solveAndPlot _ => [.solve, .extract]
  | .assertStmt _ => [.extract]
  | .plot _ => [.extract]
  | .printStmt _ => [.extract]
  | .loopPrintOnly _ => [.extract]
  | _ => []

/-- Step sequence of a whole notebook. -/
def stepsOf (nb : List Stmt) : List StepClass := (nb.map Stmt.steps).flatten

/-- Boolean subsequence test: `isSubseq pat l` holds when the elements of
`pat` occur in `l` in order, not necessarily contiguously. -/
def isSubseq : List StepClass → List StepClass → Bool
  | [], _ => true
  | _ :: _, [] => false
  | a :: as, b :: bs => if a = b then isSubseq as bs else isSubseq (a :: as) bs

/-- The claim of section 2 read literally: the notebook performs all five
steps, in the stated order. -/
def followsFiveSteps (nb : List Stmt) : Bool :=
  isSubseq [.build, .attach, .fix, .solve, .extract] (stepsOf nb)

/-- The amended flow property: the notebook performs build, solve and extract
in that order, and whenever it fixes variables or attaches framework models it
does so after a build and before a solve. -/
def followsCoreSteps (nb : List Stmt) : Bool :=
  isSubseq [.build, .solve, .extract] (stepsOf nb)
    && (!(stepsOf nb).contains .fix || isSubseq [.build, .fix, .solve] (stepsOf nb))
    && (!(stepsOf nb).contains .attach || isSubseq [.build, .attach, .solve] (stepsOf nb))

/-!  Assertions. -/

/-- The assertion carried by an assert statement, if any. -/
def Stmt.assertOf : Stmt → Option AssertForm
  | .assertStmt a => some a
  | _ => none

/-- All assertions of a notebook, in order. -/
def assertsOf (nb : List Stmt) : List AssertForm := nb.filterMap Stmt.assertOf

/-- Whether an assertion validates external-solver numerical output: a solved
value against a reference, or the termination status of the solver.  The
degrees-of-freedom assertions check model structure instead. -/
def AssertForm.validatesSolverOutput : AssertForm → Bool
  | .dofEq _ _ => false
  | _ => true

/-- Whether a statement is an external solver invocation. -/
def Stmt.isSolve : Stmt → Bool
  | .solveCall _ => true
  | .petscSolve _ => true
  | .solveAndPlot _ => true
  | _ => false

/-- Modelled from the external pytest library: `pytest.approx(expected, abs=tol)`
with no relative tolerance given accepts an actual value iff the absolute
difference from the expected value is at most `tol`. -/
def pytestApproxAbs (expected tol actual : ℚ) : Bool :=
  decide (|actual - expected| ≤ tol)

/-- Acceptance region of a value assertion: for which solved values `x` does
the assert pass?  `approxAbs` follows the pytest model above; `absDiffLe`
transcribes `assert abs(x - ref) <= tol` directly.  Assertions that do not
compare one solved value against a numeric reference yield `none`. -/
def AssertForm.valueAccepts : AssertForm → ℚ → Option Bool
  | .approxAbs _ e tol, x => some (pytestApproxAbs e tol x)
  | .absDiffLe _ r tol, x => some (decide (|x - r| ≤ tol))
  | _, _ => none

/-!  Error-handling constructs other than assertions. -/

/-- Error-handling constructs other than assertions: exception capture and
branching on a failure flag.  The result pairs a construct kind with its
detail. -/
def Stmt.nonAssertErrorHandling : Stmt → Option (String × String)
  | .tryExcept exc d => some (exc, d)
  | .branchOnFlag f => some ("branch on flag", f)
  | _ => none

/-- All non-assert error-handling constructs of a notebook, in order. -/
def ehConstructs (nb : List Stmt) : List (String × String) :=
  nb.filterMap Stmt.nonAssertErrorHandling

/-!  PETSc invocations. -/

/-- The `ts_options` dictionary of a PETSc invocation, if the statement is
one. -/
def Stmt.petscOpts : Stmt → Option (List (String × OptVal))
  | .petscSolve opts => some opts
  | _ => none

/-- All petsc_dae_by_time_element invocations of all notebooks, each
represented by its `ts_options` dictionary. -/
def petscInvocations : List (List (String × OptVal)) :=
  (allNotebooks.map (fun nb => nb.filterMap Stmt.petscOpts)).flatten

/-- Look an option key up in a `ts_options` dictionary. -/
def lookupOpt (opts : List (String × OptVal)) (k : String) : Option OptVal :=
  (opts.find? (fun p => p.1 == k)).map (fun p => p.2)

/-!  Surrogate save, load and attachment events. -/

/-- A surrogate file event: serialization to a file, deserialization from a
file into a target variable, or attachment of a surrogate object to the
SurrogateBlock of the flowsheet. -/
inductive SLEvent
  | save (file : String)
  | load (file target : String)
  | attachS (source : String)
  deriving DecidableEq, Repr

/-- The surrogate file event of a statement, if any. -/
def Stmt.slEvent : Stmt → Option SLEvent
  | .saveSurrogate f => some (.save f)
  | .loadSurrogate f t => some (.load f t)
  | .attachSurrogate s => some (.attachS s)
  | _ => none

/-- All surrogate file events of a notebook, in order. -/
def slEvents (nb : List Stmt) : List SLEvent := nb.filterMap Stmt.slEvent

/-!  Variable fixing and degrees of freedom. -/

/-- Names of the variables a statement list fixes, in order. -/
def fixTargets (nb : List Stmt) : List String :=
  nb.filterMap (fun s => match s with | .fixVar v _ => some v | _ => none)

/-- Expected values of the degrees-of-freedom assertions of a statement list,
in order. -/
def dofAsserts (nb : List Stmt) : List Int :=
  nb.filterMap (fun s => match s with
    | .assertStmt (.dofEq _ n) => some n
    | _ => none)

/-- Modelled from the external IDAES degrees_of_freedom semantics: the count is
the number of unfixed variables minus the number of active equality
constraints, so fixing a previously free variable lowers it by one. -/
def dofAfterFixes (initial : Int) (fixes : List String) : Int :=
  initial - fixes.length

/-!  Local computation. -/

/-- Whether a statement is free of locally implemented algorithmic
computation: it is not a recursively defined local function and not a loop
whose body computes values (loops that only print are allowed). -/
def Stmt.localComputationFree : Stmt → Bool
  | .defFun _ isRec _ => !isRec
  | .loopCompute _ => false
  | _ => true

/-- All locally defined Python functions of a notebook, as name, recursion
flag and body. -/
def localFunDefs (nb : List Stmt) : List (String × Bool × Expr) :=
  nb.filterMap (fun s => match s with
    | .defFun n r b => some (n, r, b)
    | _ => none)

/-!  Exact evaluation of the embedded constraint expressions. -/

/-- Evaluation of an embedded constraint expression at explicit time `t`, with
the external IDAES smoothing helpers smooth_min and smooth_max replaced by the
exact min and max they approximate.  Constructors that do not occur in numeric
constraint expressions (string literals, function parameters, other external
calls) evaluate to 0. -/
def Expr.evalExact (t : ℚ) : Expr → ℚ
  | .const q => q
  | .timeVar => t
  | .add a b => a.evalExact t + b.evalExact t
  | .sub a b => a.evalExact t - b.evalExact t
  | .mul a b => a.evalExact t * b.evalExact t
  | .sMin a b => min (a.evalExact t) (b.evalExact t)
  | .sMax a b => max (a.evalExact t) (b.evalExact t)
  | _ => 0

/-- The inlet-pressure value the three-element formulation of the PID notebook
specifies at time `t`: the pressure variable is fixed to 500000 at times 0 and
10 and to 600000 at time 24, and at time 12 it is unfixed and determined by the
linear ramp constraint, which is active only there.  At other times the
formulation specifies no value. -/
def specifiedPressure3 (t : ℚ) : Option ℚ :=
  if t = 0 then some 500000
  else if t = 10 then some 500000
  else if t = 24 then some 600000
  else if t = 12 then some (Expr.evalExact t linRampExpr)
  else none

/-- The hydrogen mole-fraction assertion of both autothermal-reformer
surrogate notebooks: `assert abs(value(m.fs.H2) - 0.33) <= 0.01`. -/
def h2Assert : AssertForm := .absDiffLe "value(m.fs.H2)" (mkRat 33 100) (mkRat 1 100)

/-- The Case 1 outlet-pressure assertion of the pump notebook:
`assert m.fs.pump_case_1.outlet.pressure[0].value == pytest.approx(201325, abs=1e-2)`. -/
def pumpPressureAssert : AssertForm :=
  .approxAbs "m.fs.pump_case_1.outlet.pressure[0].value" 201325 (mkRat 1 100)

/-!  Theorems settling the claims. -/

/-- C1.  The embedded test assertions accept exactly the tolerances the
specification states: the post-optimization hydrogen assertion present in each
autothermal-reformer surrogate notebook accepts a solved value iff it is within
0.01 of 0.33, and the Case 1 outlet-pressure assertion of the pump notebook
accepts a solved value iff it is within 1e-2 Pa of 201325. -/
theorem C1_assert_tolerances :
    h2Assert ∈ assertsOf pysmoNb
      ∧ h2Assert ∈ assertsOf alamoNb
      ∧ pumpPressureAssert ∈ assertsOf pumpCase1
      ∧ (∀ x : ℚ, h2Assert.valueAccepts x = some true ↔ |x - 33/100| ≤ 1/100)
      ∧ (∀ x : ℚ, pumpPressureAssert.valueAccepts x = some true ↔
          |x - 201325| ≤ 1/100) := by
  refine ⟨by decide, by decide, by decide, fun x => ?_, fun x => ?_⟩ <;>
    simp [h2Assert, pumpPressureAssert, AssertForm.valueAccepts, pytestApproxAbs,
      Rat.mkRat_eq_div]

/-- C5.  Every petsc_dae_by_time_element invocation in the notebooks (there
are four) passes a ts_options dictionary containing the keys --ts_type and
--ts_dt and setting --ts_save_trajectory to the number 1. -/
theorem C5_petsc_options :
    petscInvocations.length = 4
      ∧ petscInvocations.all (fun opts =>
          (lookupOpt opts "--ts_type").isSome
            && (lookupOpt opts "--ts_dt").isSome
            && (lookupOpt opts "--ts_save_trajectory" == some (.num 1))) = true := by
  constructor <;> rfl

/-- C6.  In each surrogate notebook the JSON surrogate file is produced and
consumed within the same notebook: the surrogate file events are, in order, a
save_to_file to a JSON file name, a load_from_file of exactly the same file
name into the variable named surrogate, and the attachment of exactly that
variable to the SurrogateBlock of the flowsheet. -/
theorem C6_surrogate_roundtrip :
    slEvents pysmoNb =
        [.save "pysmo_poly_surrogate.json",
         .load "pysmo_poly_surrogate.json" "surrogate",
         .attachS "surrogate"]
      ∧ slEvents alamoNb =
        [.save "alamo_surrogate.json",
         .load "alamo_surrogate.json" "surrogate",
         .attachS "surrogate"]
      ∧ slEvents petscChemNb = [] ∧ slEvents petscPidNb = []
      ∧ slEvents pumpNb = [] ∧ slEvents txyNb = [] := by
  refine ⟨by decide, by decide, by decide, by decide, by decide, by decide⟩

/-- C10.  In the pump notebook each case asserts exactly 5 degrees of freedom
right after the Pump unit is attached, then fixes exactly five distinct
variables, namely the three inlet conditions plus deltaP and efficiency_pump in
Case 1 and the three inlet conditions plus the outlet pressure and
efficiency_pump in Case 2, then asserts exactly 0 degrees of freedom; under
the modelled degrees_of_freedom semantics, fixing five free variables lowers
the asserted initial count 5 to the asserted final count 0. -/
theorem C10_pump_dof :
    fixTargets pumpCase1 =
        ["pump_case_1.inlet.flow_mol[0]", "pump_case_1.inlet.enth_mol[0]",
         "pump_case_1.inlet.pressure[0]", "pump_case_1.deltaP",
         "pump_case_1.efficiency_pump"]
      ∧ (fixTargets pumpCase1).Nodup
      ∧ dofAsserts pumpCase1 = [5, 0]
      ∧ dofAfterFixes 5 (fixTargets pumpCase1) = 0
      ∧ fixTargets pumpCase2 =
        ["pump_case_2.inlet.flow_mol[0]", "pump_case_2.inlet.enth_mol[0]",
         "pump_case_2.inlet.pressure[0]", "pump_case_2.outlet.pressure[0]",
         "pump_case_2.efficiency_pump"]
      ∧ (fixTargets pumpCase2).Nodup
      ∧ dofAsserts pumpCase2 = [5, 0]
      ∧ dofAfterFixes 5 (fixTargets pumpCase2) = 0 := by
  decide

/-- C4.  No statement of any notebook implements local algorithmic
computation: no locally defined function is recursive, no loop computes values
(every loop only prints), and the only locally defined functions across all
notebooks are the two one-expression datafile_path helpers of the surrogate
notebooks. -/
theorem C4_no_local_algorithms :
    (allNotebooks.all (fun nb => nb.all Stmt.localComputationFree)) = true
      ∧ (allNotebooks.map localFunDefs).flatten =
        [("datafile_path", false, datafilePathBody),
         ("datafile_path", false, datafilePathBody)] := by
  refine ⟨by rfl, by decide⟩

/-- C2, counterexample.  It is false that no notebook contains an
error-handling construct other than an assertion: the ALAMO surrogate notebook
contains seven of them, starting with a try block catching FileNotFoundError
around the ALAMO training call. -/
theorem C2_counterexample :
    (allNotebooks.all (fun nb => (ehConstructs nb).isEmpty)) = false
      ∧ (ehConstructs alamoNb).length = 7
      ∧ (ehConstructs alamoNb).head? =
          some ("FileNotFoundError",
            "on missing ALAMO print a message and set has_alamo false otherwise re-raise") := by
  refine ⟨by decide, by decide, by decide⟩

/-- C2, amended.  All error handling in five of the six notebooks consists of
notebook-level assertions; the single exception is the ALAMO surrogate
notebook, which wraps the ALAMO training call in a try block that catches
FileNotFoundError (printing a message and recording the missing installation
in the has_alamo flag, and re-raising any other FileNotFoundError), and then
branches on the has_alamo and status_obj flags to skip the cells that depend
on a successful training run. -/
theorem C2_error_handling_amended :
    ehConstructs petscChemNb = []
      ∧ ehConstructs petscPidNb = []
      ∧ ehConstructs pysmoNb = []
      ∧ ehConstructs pumpNb = []
      ∧ ehConstructs txyNb = []
      ∧ ehConstructs alamoNb =
        [("FileNotFoundError",
          "on missing ALAMO print a message and set has_alamo false otherwise re-raise"),
         ("branch on flag", "has_alamo"),
         ("branch on flag", "has_alamo"),
         ("branch on flag", "has_alamo"),
         ("branch on flag", "has_alamo"),
         ("branch on flag", "status_obj"),
         ("branch on flag", "has_alamo")] := by
  refine ⟨by decide, by decide, by decide, by decide, by decide, by decide⟩

/-- C3, counterexample.  It is false that every notebook performs the five
conceptual operations in order: the chemical Akzo Nobel notebook contains no
variable-fixing operation and no unit-model attachment at all, and the
Txy-diagram notebook contains no variable-fixing operation. -/
theorem C3_counterexample :
    (allNotebooks.all followsFiveSteps) = false
      ∧ followsFiveSteps petscChemNb = false
      ∧ StepClass.fix ∉ stepsOf petscChemNb
      ∧ StepClass.attach ∉ stepsOf petscChemNb
      ∧ StepClass.fix ∉ stepsOf txyNb := by
  refine ⟨by decide, by decide, by decide, by decide, by decide⟩

/-- C3, amended.  Every notebook builds a model container, invokes an external
solver and extracts results, in that order; attaching framework models and
fixing variables are performed by some but not all notebooks (the chemical
Akzo Nobel notebook does neither and the Txy-diagram notebook fixes nothing),
and whenever they are performed they come after a container build and before a
solver invocation. -/
theorem C3_step_order_amended :
    (allNotebooks.all followsCoreSteps) = true := by
  decide

/-- C7, counterexample.  It is false that every embedded assertion validates
external-solver numerical output: the pump notebook asserts the
degrees-of-freedom count of the model, and it does so before any solver has
been invoked. -/
theorem C7_counterexample :
    (allNotebooks.all (fun nb =>
        (assertsOf nb).all AssertForm.validatesSolverOutput)) = false
      ∧ AssertForm.dofEq "DOF_initial" 5 ∈ assertsOf pumpCase1
      ∧ assertsOf (pumpCase1.takeWhile (fun s => !s.isSolve)) =
          [.dofEq "DOF_initial" 5, .dofEq "DOF_final" 0] := by
  refine ⟨by decide, by decide, by decide⟩

/-- C7, amended.  Every embedded assertion in the five notebooks other than
the pump notebook validates external-solver numerical output (a solved value
against a reference, or the termination status of the solver); the pump
notebook additionally asserts, in each case before invoking the solver, the
degree-of-freedom count of the model, and its remaining assertions validate
solver output. -/
theorem C7_assertions_amended :
    ((assertsOf petscChemNb).all AssertForm.validatesSolverOutput
        && (assertsOf petscPidNb).all AssertForm.validatesSolverOutput
        && (assertsOf pysmoNb).all AssertForm.validatesSolverOutput
        && (assertsOf alamoNb).all AssertForm.validatesSolverOutput
        && (assertsOf txyNb).all AssertForm.validatesSolverOutput) = true
      ∧ assertsOf pumpNb =
        [.dofEq "DOF_initial" 5, .dofEq "DOF_final" 0,
         .termOptimal, .statusOk,
         .approxAbs "m.fs.pump_case_1.outlet.pressure[0].value" 201325 (mkRat 1 100),
         .approxAbs "m.fs.pump_case_1.work_mechanical[0].value" (mkRat 22585 100) (mkRat 1 100),
         .dofEq "DOF_initial" 5, .dofEq "DOF_final" 0,
         .termOptimal, .statusOk,
         .approxAbs "m.fs.pump_case_2.deltaP[0].value" 100000 (mkRat 1 100),
         .approxAbs "m.fs.pump_case_2.work_mechanical[0].value" (mkRat 22585 100) (mkRat 1 100)]
      ∧ assertsOf (pumpCase1.takeWhile (fun s => !s.isSolve)) =
          [.dofEq "DOF_initial" 5, .dofEq "DOF_final" 0]
      ∧ assertsOf (pumpCase2.takeWhile (fun s => !s.isSolve)) =
          [.dofEq "DOF_initial" 5, .dofEq "DOF_final" 0]
      ∧ (assertsOf pumpNb).all (fun a =>
          a.validatesSolverOutput || a matches .dofEq _ _) = true := by
  refine ⟨by decide, by decide, by decide, by decide, by decide⟩

/-- C8.  At every time t, the right-hand side of the single-element ramp
constraint, evaluated with exact min and max substituted for the external
smooth_min and smooth_max helpers, equals the clamp of
50000 * (t - 10) + 500000 to the interval from 500000 to 600000: it is 500000
for t at most 10, the linear ramp between 10 and 12, and 600000 from 12 on. -/
theorem C8_ramp_clamp (t : ℚ) :
    Expr.evalExact t smoothRampExpr
        = min 600000 (max 500000 (50000 * (t - 10) + 500000))
      ∧ (t ≤ 10 → Expr.evalExact t smoothRampExpr = 500000)
      ∧ (10 ≤ t → t ≤ 12 → Expr.evalExact t smoothRampExpr
          = 50000 * (t - 10) + 500000)
      ∧ (12 ≤ t → Expr.evalExact t smoothRampExpr = 600000) := by
  have hval : Expr.evalExact t smoothRampExpr
      = min 600000 (max 500000 (50000 * (t - 10) + 500000)) := by
    simp [smoothRampExpr, Expr.evalExact]
  refine ⟨hval, ?_, ?_, ?_⟩
  · intro h
    have h1 : 50000 * (t - 10) + 500000 ≤ 500000 := by nlinarith
    rw [hval, max_eq_left h1, min_eq_right (by norm_num)]
  · intro h1 h2
    have hlo : (500000 : ℚ) ≤ 50000 * (t - 10) + 500000 := by nlinarith
    have hhi : 50000 * (t - 10) + 500000 ≤ (600000 : ℚ) := by nlinarith
    rw [hval, max_eq_right hlo, min_eq_right hhi]
  · intro h
    have hhi : (600000 : ℚ) ≤ 50000 * (t - 10) + 500000 := by nlinarith
    have hlo : (500000 : ℚ) ≤ 50000 * (t - 10) + 500000 := by linarith
    rw [hval, max_eq_right hlo, min_eq_left hhi]

/-- Witness for C8 at the concrete time t = 11, inside the ramp window. -/
theorem C8_ramp_clamp_witness :
    ((10 : ℚ) ≤ 11 ∧ (11 : ℚ) ≤ 12)
      ∧ Expr.evalExact 11 smoothRampExpr = 50000 * (11 - 10) + 500000 :=
  ⟨⟨by norm_num, by norm_num⟩,
   (C8_ramp_clamp 11).2.2.1 (by norm_num) (by norm_num)⟩

/-- C9.  The two inlet-pressure ramp formulations of the PID notebook agree:
at every time point at which the three-element formulation specifies an inlet
pressure (by fixing the pressure variable or by its single active ramp
constraint), that value equals the value of the single-element smooth ramp
formulation with exact min and max substituted for the smoothing helpers; in
particular both formulations ramp from 500000 Pa at time 10 to 600000 Pa at
time 12. -/
theorem C9_ramp_refinement :
    (∀ t v : ℚ, specifiedPressure3 t = some v →
        Expr.evalExact t smoothRampExpr = v)
      ∧ specifiedPressure3 10 = some 500000
      ∧ specifiedPressure3 12 = some 600000 := by
  refine ⟨?_, ?_, ?_⟩
  · intro t v h
    unfold specifiedPressure3 at h
    split_ifs at h with h0 h10 h24 h12
    · cases h
      subst h0
      norm_num [smoothRampExpr, Expr.evalExact]
    · cases h
      subst h10
      norm_num [smoothRampExpr, Expr.evalExact]
    · cases h
      subst h24
      norm_num [smoothRampExpr, Expr.evalExact]
    · cases h
      subst h12
      norm_num [smoothRampExpr, linRampExpr, Expr.evalExact]
  · unfold specifiedPressure3
    norm_num
  · unfold specifiedPressure3
    norm_num [linRampExpr, Expr.evalExact]

/-- Witness for C9 at the concrete time t = 24, where the three-element
formulation fixes the pressure to 600000. -/
theorem C9_ramp_refinement_witness :
    specifiedPressure3 24 = some 600000
      ∧ Expr.evalExact 24 smoothRampExpr = 600000 :=
  ⟨by norm_num [specifiedPressure3],
   C9_ramp_refinement.1 24 600000 (by norm_num [specifiedPressure3])⟩

end IdaesExamples
